import Mathlib

/-!
Embedded CMake examples: startup stub, busy-wait delay, platform library.

A shallow embedding of the four C/C++ translation units of the repository:

* `02_PlatformTargetWrappers/Case2Example/src/main.c`
* `02_PlatformTargetWrappers/Case3Example/src/main.c`
* `CMakePlayground/MultiplePlatformsInOneBuild/imported_target_test/library/mylib.c`
* `CMakePlayground/MultiplePlatformsInOneBuild/src/mylib_consumer.cpp`

Functions that loop (`delay`, `main`, `_c_int00`) are embedded as deterministic
small-step machines: a program point per statement, one `step` function per C
function, and the function name itself denotes the state reached after `n`
steps from the entry of the function.  `uint32_t` values are naturals below
`2 ^ 32` with explicit reduction modulo `2 ^ 32`.
-/

/-! ## Machine integers -/

/-- Number of values of a `uint32_t`. -/
def UINT32_MOD : Nat := 2 ^ 32

/-- Conversion of an `int` value to `uint32_t` (reduction modulo `2 ^ 32`). -/
def to_uint32 (x : Int) : Nat := (x % (UINT32_MOD : Int)).toNat

/-- The value stored by `x++` on a `uint32_t`. -/
def uint32_succ (x : Nat) : Nat := (x + 1) % UINT32_MOD

/-- The value stored by `x--` on a `uint32_t`. -/
def uint32_pred (x : Nat) : Nat := (x + UINT32_MOD - 1) % UINT32_MOD

/-! ## Called functions as transition systems -/

/-- A function that can be called with an argument of type `α`, given as a
deterministic transition system: the state on entry, one execution step, and
the test whether the function has returned. -/
structure Callee (α : Type) where
  /-- States of the running function. -/
  State : Type
  /-- State on entry, from the argument. -/
  entry : α → State
  /-- One execution step. -/
  step : State → State
  /-- Whether the function has returned to its caller. -/
  returned : State → Bool

/-- A stand-in function that returns to its caller immediately. -/
def mock_callee (α : Type) : Callee α where
  State := Unit
  entry := fun _ => ()
  step := fun s => s
  returned := fun _ => true

/-! ## State types shared by the two `main.c` files -/

/-- Program points of `delay`. -/
inductive DelayPc where
  /-- The loop test `while (count--)`. -/
  | whileTest
  /-- The loop body `__asm__ volatile("nop")`. -/
  | nop
  /-- After the loop: the function has returned. -/
  | returned
deriving DecidableEq, Repr

/-- State of a running `delay`: program point, the parameter `count`, and the
number of `nop` instructions executed so far (instrumentation). -/
structure DelayState where
  pc : DelayPc
  count : Nat
  nops : Nat
deriving DecidableEq, Repr

/-- Program points of `main`, over the states `σ` of the called `delay`. -/
inductive MainPc (σ : Type) where
  /-- The loop test `while (1)`. -/
  | whileTest
  /-- The statement `counter++`. -/
  | increment
  /-- The call `delay(100000)`, about to be made. -/
  | callDelay
  /-- Control is inside `delay`. -/
  | inDelay (d : σ)
  /-- The trailing `return 0`. -/
  | return0

/-- State of a running `main`: program point, the local `counter`, and the
number of completed passes through the loop body (instrumentation). -/
structure MainState (σ : Type) where
  pc : MainPc σ
  counter : Nat
  iterations : Nat

/-- Program points of `_c_int00`, over the states `σ` of the called `main`. -/
inductive HandlerPc (σ : Type) where
  /-- The call `main()`, about to be made. -/
  | callMain
  /-- Control is inside `main`. -/
  | inMain (m : σ)
  /-- The loop `while (1) {}`. -/
  | hang
  /-- The end of the function body: the handler has returned. -/
  | returned

/-- State of a running `_c_int00`: program point and the number of calls of
`main` made so far (instrumentation). -/
structure HandlerState (σ : Type) where
  pc : HandlerPc σ
  mainCalls : Nat

/-- Functions defined in `main.c`. -/
inductive FuncSymbol where
  | delay
  | main
  | _c_int00
deriving DecidableEq, Repr

/-- A value of type `void (*)(void)`: null or the address of a function. -/
inductive FuncPtr where
  | null
  | addr (f : FuncSymbol)
deriving DecidableEq, Repr

/-! ## `02_PlatformTargetWrappers/Case2Example/src/main.c` -/

namespace Case2Example

/-- Entry of `static void delay(volatile uint32_t count)`: the argument is
converted to `uint32_t`, no `nop` has been executed. -/
def delay.entry (count : Nat) : DelayState :=
  { pc := .whileTest, count := count % UINT32_MOD, nops := 0 }

/-- One step of the body of `delay`:
`while (count--) { __asm__ volatile("nop"); }`.
The test reads `count`, stores `count - 1` (modulo `2 ^ 32`) and branches on
the value read. -/
def delay.step (s : DelayState) : DelayState :=
  match s.pc with
  | .whileTest =>
    if s.count ≠ 0 then { s with pc := .nop, count := uint32_pred s.count }
    else { s with pc := .returned, count := uint32_pred s.count }
  | .nop => { s with pc := .whileTest, nops := s.nops + 1 }
  | .returned => s

/-- State of the call `delay(count)` after `n` steps. -/
def delay (count : Nat) (n : Nat) : DelayState :=
  delay.step^[n] (delay.entry count)

/-- The function `delay` as a callee. -/
def delay.callee : Callee Nat where
  State := DelayState
  entry := delay.entry
  step := delay.step
  returned := fun s => decide (s.pc = .returned)

/-- Entry of `int main(void)` once the supplier has returned:
`volatile uint32_t counter = mylib_getSomeValue();` converts the `int` to
`uint32_t`, and control is at the loop test. -/
def main.entry (D : Callee Nat) (mylib_getSomeValue : Int) : MainState D.State :=
  { pc := .whileTest, counter := to_uint32 mylib_getSomeValue, iterations := 0 }

/-- One step of the body of `main`, calling the function `D` as `delay`:
`while (1) { counter++; delay(100000); } return 0;`. -/
def main.step (D : Callee Nat) (s : MainState D.State) : MainState D.State :=
  match s.pc with
  | .whileTest =>
    if (1 : Nat) ≠ 0 then { s with pc := .increment } else { s with pc := .return0 }
  | .increment => { s with pc := .callDelay, counter := uint32_succ s.counter }
  | .callDelay => { s with pc := .inDelay (D.entry 100000) }
  | .inDelay d =>
    if D.returned d then { s with pc := .whileTest, iterations := s.iterations + 1 }
    else { s with pc := .inDelay (D.step d) }
  | .return0 => s

/-- State of `main` after `n` steps, with `D` linked as `delay` and the
supplier returning `seed`. -/
def main_with (D : Callee Nat) (seed : Int) (n : Nat) : MainState D.State :=
  (main.step D)^[n] (main.entry D seed)

/-- Steps of one pass through the loop of `main` with `delay` linked: the
test, the increment, the call, the `2 * 100000 + 1` steps of `delay(100000)`,
and the return from the call. -/
def main.iteration_steps : Nat := 200005

/-- Steps of one pass through the loop of `main` with `delay` mocked out. -/
def main.mocked_iteration_steps : Nat := 4

/-- State of `main` after `n` steps, as compiled: the callee is `delay`. -/
def main (seed : Int) (n : Nat) : MainState DelayState :=
  main_with delay.callee seed n

/-- State of `main` after `n` steps, with `delay` mocked out. -/
def main_mocked (seed : Int) (n : Nat) : MainState Unit :=
  main_with (mock_callee Nat) seed n

/-- Whether a state of `main` is the exit `return 0`. -/
def main.returned {σ : Type} (s : MainState σ) : Bool :=
  match s.pc with
  | .return0 => true
  | _ => false

/-- The function `main` as a callee of the reset handler. -/
def main.callee (seed : Int) : Callee Unit where
  State := MainState DelayState
  entry := fun _ => main.entry delay.callee seed
  step := main.step delay.callee
  returned := main.returned

/-- Entry of `void _c_int00(void)`: `main` has not been called yet. -/
def _c_int00.entry (M : Callee Unit) : HandlerState M.State :=
  { pc := .callMain, mainCalls := 0 }

/-- One step of the body of `_c_int00`, calling the function `M` as `main`:
`main(); while (1) {}`. -/
def _c_int00.step (M : Callee Unit) (s : HandlerState M.State) : HandlerState M.State :=
  match s.pc with
  | .callMain => { pc := .inMain (M.entry ()), mainCalls := s.mainCalls + 1 }
  | .inMain m =>
    if M.returned m then { s with pc := .hang }
    else { s with pc := .inMain (M.step m) }
  | .hang =>
    if (1 : Nat) ≠ 0 then { s with pc := .hang } else { s with pc := .returned }
  | .returned => s

/-- State of the reset handler after `n` steps, with `M` linked as `main`. -/
def _c_int00 (M : Callee Unit) (n : Nat) : HandlerState M.State :=
  (_c_int00.step M)^[n] (_c_int00.entry M)

/-- The table `void (*const vector_table[])(void) = { _c_int00 }`. -/
def vector_table : List FuncPtr := [.addr ._c_int00]

end Case2Example

/-! ## `02_PlatformTargetWrappers/Case3Example/src/main.c` -/

namespace Case3Example

/-- Entry of `static void delay(volatile uint32_t count)`: the argument is
converted to `uint32_t`, no `nop` has been executed. -/
def delay.entry (count : Nat) : DelayState :=
  { pc := .whileTest, count := count % UINT32_MOD, nops := 0 }

/-- One step of the body of `delay`:
`while (count--) { __asm__ volatile("nop"); }`.
The test reads `count`, stores `count - 1` (modulo `2 ^ 32`) and branches on
the value read. -/
def delay.step (s : DelayState) : DelayState :=
  match s.pc with
  | .whileTest =>
    if s.count ≠ 0 then { s with pc := .nop, count := uint32_pred s.count }
    else { s with pc := .returned, count := uint32_pred s.count }
  | .nop => { s with pc := .whileTest, nops := s.nops + 1 }
  | .returned => s

/-- State of the call `delay(count)` after `n` steps. -/
def delay (count : Nat) (n : Nat) : DelayState :=
  delay.step^[n] (delay.entry count)

/-- The function `delay` as a callee. -/
def delay.callee : Callee Nat where
  State := DelayState
  entry := delay.entry
  step := delay.step
  returned := fun s => decide (s.pc = .returned)

/-- Entry of `int main(void)` once the supplier has returned:
`volatile uint32_t counter = mylib_getValue();` converts the `int` to
`uint32_t`, and control is at the loop test. -/
def main.entry (D : Callee Nat) (mylib_getValue : Int) : MainState D.State :=
  { pc := .whileTest, counter := to_uint32 mylib_getValue, iterations := 0 }

/-- One step of the body of `main`, calling the function `D` as `delay`:
`while (1) { counter++; delay(100000); } return 0;`. -/
def main.step (D : Callee Nat) (s : MainState D.State) : MainState D.State :=
  match s.pc with
  | .whileTest =>
    if (1 : Nat) ≠ 0 then { s with pc := .increment } else { s with pc := .return0 }
  | .increment => { s with pc := .callDelay, counter := uint32_succ s.counter }
  | .callDelay => { s with pc := .inDelay (D.entry 100000) }
  | .inDelay d =>
    if D.returned d then { s with pc := .whileTest, iterations := s.iterations + 1 }
    else { s with pc := .inDelay (D.step d) }
  | .return0 => s

/-- State of `main` after `n` steps, with `D` linked as `delay` and the
supplier returning `seed`. -/
def main_with (D : Callee Nat) (seed : Int) (n : Nat) : MainState D.State :=
  (main.step D)^[n] (main.entry D seed)

/-- Steps of one pass through the loop of `main` with `delay` linked: the
test, the increment, the call, the `2 * 100000 + 1` steps of `delay(100000)`,
and the return from the call. -/
def main.iteration_steps : Nat := 200005

/-- Steps of one pass through the loop of `main` with `delay` mocked out. -/
def main.mocked_iteration_steps : Nat := 4

/-- State of `main` after `n` steps, as compiled: the callee is `delay`. -/
def main (seed : Int) (n : Nat) : MainState DelayState :=
  main_with delay.callee seed n

/-- State of `main` after `n` steps, with `delay` mocked out. -/
def main_mocked (seed : Int) (n : Nat) : MainState Unit :=
  main_with (mock_callee Nat) seed n

/-- Whether a state of `main` is the exit `return 0`. -/
def main.returned {σ : Type} (s : MainState σ) : Bool :=
  match s.pc with
  | .return0 => true
  | _ => false

/-- The function `main` as a callee of the reset handler. -/
def main.callee (seed : Int) : Callee Unit where
  State := MainState DelayState
  entry := fun _ => main.entry delay.callee seed
  step := main.step delay.callee
  returned := main.returned

/-- Entry of `void _c_int00(void)`: `main` has not been called yet. -/
def _c_int00.entry (M : Callee Unit) : HandlerState M.State :=
  { pc := .callMain, mainCalls := 0 }

/-- One step of the body of `_c_int00`, calling the function `M` as `main`:
`main(); while (1) {}`. -/
def _c_int00.step (M : Callee Unit) (s : HandlerState M.State) : HandlerState M.State :=
  match s.pc with
  | .callMain => { pc := .inMain (M.entry ()), mainCalls := s.mainCalls + 1 }
  | .inMain m =>
    if M.returned m then { s with pc := .hang }
    else { s with pc := .inMain (M.step m) }
  | .hang =>
    if (1 : Nat) ≠ 0 then { s with pc := .hang } else { s with pc := .returned }
  | .returned => s

/-- State of the reset handler after `n` steps, with `M` linked as `main`. -/
def _c_int00 (M : Callee Unit) (n : Nat) : HandlerState M.State :=
  (_c_int00.step M)^[n] (_c_int00.entry M)

/-- The table `void (*const vector_table[])(void) = { _c_int00 }`. -/
def vector_table : List FuncPtr := [.addr ._c_int00]

end Case3Example

/-! ## `imported_target_test/library/mylib.c` -/

/-- Number of values of an `int` (32 bits on the platforms of the build). -/
def INT_MOD : Int := 2 ^ 32

/-- Smallest `int`. -/
def INT_MIN : Int := -2 ^ 31

/-- Largest `int`. -/
def INT_MAX : Int := 2 ^ 31 - 1

/-- The `int` that a mathematical integer is stored as: the representative
of its class modulo `2 ^ 32` between `INT_MIN` and `INT_MAX`. -/
def to_int (x : Int) : Int := (x - INT_MIN) % INT_MOD + INT_MIN

/-- The preprocessor symbols the library is compiled with. -/
structure BuildConfig where
  /-- Whether `PLATFORM_AM243X` is defined. -/
  PLATFORM_AM243X : Bool
  /-- Whether `PLATFORM_TMS570` is defined. -/
  PLATFORM_TMS570 : Bool
deriving DecidableEq, Repr

/-- The function `int mylib_add(int a, int b) { return a + b; }` on 32-bit
two-complement `int`.  C leaves a sum outside `INT_MIN .. INT_MAX` undefined;
the embedding stores the sum as the machine addition does. -/
def mylib_add (a b : Int) : Int := to_int (a + b)

/-- The function `const char* mylib_get_platform(void)`: the branch of
`#if defined(PLATFORM_AM243X) / #elif defined(PLATFORM_TMS570) / #else` that
the build configuration keeps. -/
def mylib_get_platform (cfg : BuildConfig) : String :=
  if cfg.PLATFORM_AM243X then "am243x"
  else if cfg.PLATFORM_TMS570 then "tms570"
  else "unknown"

/-! ## `MultiplePlatformsInOneBuild/src/mylib_consumer.cpp` -/

namespace mylib_consumer

/-- The function `main` of the consumer: the two lines it prints, and its
return value. -/
def main (cfg : BuildConfig) : List String × Int :=
  (["Platform: " ++ mylib_get_platform cfg ++ "\n",
    "2 + 3 = " ++ toString (mylib_add 2 3) ++ "\n"], 0)

end mylib_consumer

/-! ## The busy-wait delay -/

theorem uint32_pred_pos (c : Nat) (h0 : 0 < c) (h : c < UINT32_MOD) :
    uint32_pred c = c - 1 := by
  unfold uint32_pred UINT32_MOD at *
  omega

theorem uint32_pred_zero : uint32_pred 0 = UINT32_MOD - 1 := by
  decide

/-- From the loop test with `c` in `count`, `2 * k` steps perform `k` passes
of the loop, for `k ≤ c`. -/
theorem Case2Example.delay_step_even (c m k : Nat) (hc : c < UINT32_MOD) (hk : k ≤ c) :
    Case2Example.delay.step^[2 * k] { pc := .whileTest, count := c, nops := m }
      = { pc := .whileTest, count := c - k, nops := m + k } := by
  induction k with
  | zero => rfl
  | succ k ih =>
    have hk1 : k ≤ c := by omega
    have hne : c - k ≠ 0 := by omega
    have hp : uint32_pred (c - k) = c - (k + 1) := by
      rw [uint32_pred_pos (c - k) (by omega) (by omega)]; omega
    rw [show 2 * (k + 1) = (2 * k + 1) + 1 from by ring,
      Function.iterate_succ_apply', Function.iterate_succ_apply', ih hk1]
    simp [Case2Example.delay.step, hne, hp, Nat.add_assoc]

/-- From the loop test with `c` in `count`, the step `2 * k + 1` is inside
the loop body, for `k < c`. -/
theorem Case2Example.delay_step_odd (c m k : Nat) (hc : c < UINT32_MOD) (hk : k < c) :
    Case2Example.delay.step^[2 * k + 1] { pc := .whileTest, count := c, nops := m }
      = { pc := .nop, count := c - (k + 1), nops := m + k } := by
  have hne : c - k ≠ 0 := by omega
  have hp : uint32_pred (c - k) = c - (k + 1) := by
    rw [uint32_pred_pos (c - k) (by omega) (by omega)]; omega
  rw [Function.iterate_succ_apply', Case2Example.delay_step_even c m k hc (by omega)]
  simp [Case2Example.delay.step, hne, hp]

/-- The returned state of `delay` is final. -/
theorem Case2Example.delay_step_returned (c m j : Nat) :
    Case2Example.delay.step^[j] { pc := .returned, count := c, nops := m }
      = { pc := .returned, count := c, nops := m } := by
  induction j with
  | zero => rfl
  | succ j ih => rw [Function.iterate_succ_apply', ih]; rfl

/-- From the loop test with `c` in `count`, `delay` has returned after
`2 * c + 1` steps and stays so. -/
theorem Case2Example.delay_step_final (c m j : Nat) (hc : c < UINT32_MOD) :
    Case2Example.delay.step^[2 * c + 1 + j] { pc := .whileTest, count := c, nops := m }
      = { pc := .returned, count := UINT32_MOD - 1, nops := m + c } := by
  rw [Nat.add_comm (2 * c + 1) j, Function.iterate_add_apply,
    Function.iterate_succ_apply', Case2Example.delay_step_even c m c hc (Nat.le_refl c)]
  simp [Case2Example.delay.step, uint32_pred_zero, Case2Example.delay_step_returned]

theorem Case2Example.delay_entry_eq (N : Nat) (hN : N < UINT32_MOD) :
    Case2Example.delay.entry N = { pc := .whileTest, count := N, nops := 0 } := by
  simp [Case2Example.delay.entry, Nat.mod_eq_of_lt hN]

/-- State of `delay(N)` at the `k`-th evaluation of the loop test. -/
theorem Case2Example.delay_even (N k : Nat) (hN : N < UINT32_MOD) (hk : k ≤ N) :
    Case2Example.delay N (2 * k) = { pc := .whileTest, count := N - k, nops := k } := by
  unfold Case2Example.delay
  rw [Case2Example.delay_entry_eq N hN, Case2Example.delay_step_even N 0 k hN hk]
  simp

/-- State of `delay(N)` at the `k`-th execution of the loop body. -/
theorem Case2Example.delay_odd (N k : Nat) (hN : N < UINT32_MOD) (hk : k < N) :
    Case2Example.delay N (2 * k + 1) = { pc := .nop, count := N - (k + 1), nops := k } := by
  unfold Case2Example.delay
  rw [Case2Example.delay_entry_eq N hN, Case2Example.delay_step_odd N 0 k hN hk]
  simp

/-- State of `delay(N)` from step `2 * N + 1` on. -/
theorem Case2Example.delay_final (N j : Nat) (hN : N < UINT32_MOD) :
    Case2Example.delay N (2 * N + 1 + j)
      = { pc := .returned, count := UINT32_MOD - 1, nops := N } := by
  unfold Case2Example.delay
  rw [Case2Example.delay_entry_eq N hN, Case2Example.delay_step_final N 0 j hN]
  simp

/-- Before step `2 * N + 1` the call `delay(N)` has not returned. -/
theorem Case2Example.delay_running (N n : Nat) (hN : N < UINT32_MOD) (hn : n < 2 * N + 1) :
    (Case2Example.delay N n).pc ≠ .returned := by
  rcases Nat.even_or_odd' n with ⟨k, hk | hk⟩
  · subst hk
    rw [Case2Example.delay_even N k hN (by omega)]
    simp
  · subst hk
    rw [Case2Example.delay_odd N k hN (by omega)]
    simp

/-- The call `delay(N)` never executes more than `N` times `nop`. -/
theorem Case2Example.delay_nops_le (N n : Nat) (hN : N < UINT32_MOD) :
    (Case2Example.delay N n).nops ≤ N := by
  by_cases hn : n < 2 * N + 1
  · rcases Nat.even_or_odd' n with ⟨k, hk | hk⟩
    · subst hk
      rw [Case2Example.delay_even N k hN (by omega)]
      show k ≤ N
      omega
    · subst hk
      rw [Case2Example.delay_odd N k hN (by omega)]
      show k ≤ N
      omega
  · obtain ⟨j, rfl⟩ : ∃ j, n = 2 * N + 1 + j := ⟨n - (2 * N + 1), by omega⟩
    rw [Case2Example.delay_final N j hN]

/-- The two `main.c` files define the same `delay`. -/
theorem Case3Example.delay_eq (N n : Nat) :
    Case3Example.delay N n = Case2Example.delay N n := rfl

/-! ## The application loop -/

theorem to_uint32_lt (x : Int) : to_uint32 x < UINT32_MOD := by
  unfold to_uint32 UINT32_MOD
  omega

/-- Adding `M` to the converted seed modulo `2 ^ 32` is adding `M` to the
seed modulo `2 ^ 32`. -/
theorem to_uint32_add_mod (x : Int) (M : Nat) :
    (((to_uint32 x + M) % UINT32_MOD : Nat) : Int) = (x + (M : Int)) % 2 ^ 32 := by
  unfold to_uint32 UINT32_MOD
  omega

/-- While the callee has not returned, `main` only advances the callee. -/
theorem Case2Example.main_step_inDelay (D : Callee Nat) (d : D.State) (c i k : Nat)
    (h : ∀ j, j < k → D.returned (D.step^[j] d) = false) :
    (Case2Example.main.step D)^[k] { pc := .inDelay d, counter := c, iterations := i }
      = { pc := .inDelay (D.step^[k] d), counter := c, iterations := i } := by
  induction k with
  | zero => rfl
  | succ k ih =>
    rw [Function.iterate_succ_apply', ih (fun j hj => h j (by omega)),
      Function.iterate_succ_apply']
    simp [Case2Example.main.step, h k (by omega)]

/-- One pass through the loop of `main`, when the callee returns after exactly
`L` steps: the counter is incremented once. -/
theorem Case2Example.main_step_iteration (D : Callee Nat) (L c i : Nat)
    (hrun : ∀ j, j < L → D.returned (D.step^[j] (D.entry 100000)) = false)
    (hret : D.returned (D.step^[L] (D.entry 100000)) = true) :
    (Case2Example.main.step D)^[L + 4] { pc := .whileTest, counter := c, iterations := i }
      = { pc := .whileTest, counter := uint32_succ c, iterations := i + 1 } := by
  rw [show L + 4 = 1 + (L + 3) from by omega, Function.iterate_add_apply,
    Function.iterate_add_apply]
  have h3 : (Case2Example.main.step D)^[3]
      { pc := .whileTest, counter := c, iterations := i }
      = { pc := .inDelay (D.entry 100000), counter := uint32_succ c, iterations := i } := by
    simp [Function.iterate_succ_apply', Case2Example.main.step]
  rw [h3, Case2Example.main_step_inDelay D _ _ _ L hrun]
  simp [Case2Example.main.step, hret]

/-- After `M` passes through the loop of `main` the counter has been incremented
`M` times modulo `2 ^ 32`. -/
theorem Case2Example.main_step_iterations (D : Callee Nat) (L c i M : Nat)
    (hrun : ∀ j, j < L → D.returned (D.step^[j] (D.entry 100000)) = false)
    (hret : D.returned (D.step^[L] (D.entry 100000)) = true) :
    (Case2Example.main.step D)^[(L + 4) * M] { pc := .whileTest, counter := c, iterations := i }
      = { pc := .whileTest, counter := if M = 0 then c else (c + M) % UINT32_MOD,
          iterations := i + M } := by
  induction M with
  | zero => rfl
  | succ M ih =>
    rw [show (L + 4) * (M + 1) = (L + 4) + (L + 4) * M from by ring,
      Function.iterate_add_apply, ih, Case2Example.main_step_iteration D L _ _ hrun hret]
    have hc : uint32_succ (if M = 0 then c else (c + M) % UINT32_MOD)
        = (c + (M + 1)) % UINT32_MOD := by
      unfold uint32_succ UINT32_MOD
      split <;> omega
    simp [hc, Nat.add_assoc]

/-- State of `main` after `M` passes of `L + 4` steps each. -/
theorem Case2Example.main_with_iterations (D : Callee Nat) (L : Nat) (seed : Int) (M : Nat)
    (hrun : ∀ j, j < L → D.returned (D.step^[j] (D.entry 100000)) = false)
    (hret : D.returned (D.step^[L] (D.entry 100000)) = true) :
    Case2Example.main_with D seed ((L + 4) * M)
      = { pc := .whileTest, counter := (to_uint32 seed + M) % UINT32_MOD, iterations := M } := by
  unfold Case2Example.main_with Case2Example.main.entry
  rw [Case2Example.main_step_iterations D L _ _ M hrun hret]
  have hlt := to_uint32_lt seed
  have hc : (if M = 0 then to_uint32 seed else (to_uint32 seed + M) % UINT32_MOD)
      = (to_uint32 seed + M) % UINT32_MOD := by
    split
    · subst M; rw [Nat.add_zero, Nat.mod_eq_of_lt hlt]
    · rfl
  simp [hc]

/-- Running the callee `delay` is running `delay`. -/
theorem Case2Example.delay_callee_run (N j : Nat) :
    Case2Example.delay.callee.step^[j] (Case2Example.delay.callee.entry N)
      = Case2Example.delay N j := rfl

/-- The callee `delay` has returned when `delay` is at its returned point. -/
theorem Case2Example.delay_callee_returned_eq (s : DelayState) :
    Case2Example.delay.callee.returned s = decide (s.pc = .returned) := rfl

/-- The call `delay(100000)` has not returned before step `200001`. -/
theorem Case2Example.delay_callee_running (j : Nat) (hj : j < 200001) :
    Case2Example.delay.callee.returned
      (Case2Example.delay.callee.step^[j] (Case2Example.delay.callee.entry 100000)) = false := by
  have h := Case2Example.delay_running 100000 j (by decide) (by omega)
  rw [Case2Example.delay_callee_run, Case2Example.delay_callee_returned_eq]
  exact decide_eq_false h

/-- The call `delay(100000)` has returned at step `200001`. -/
theorem Case2Example.delay_callee_returned :
    Case2Example.delay.callee.returned
      (Case2Example.delay.callee.step^[200001] (Case2Example.delay.callee.entry 100000)) = true := by
  have h : Case2Example.delay 100000 200001
      = { pc := .returned, count := UINT32_MOD - 1, nops := 100000 } :=
    Case2Example.delay_final 100000 0 (by decide)
  rw [Case2Example.delay_callee_run, Case2Example.delay_callee_returned_eq, h]
  rfl

/-- State of the compiled `main` after `M` passes through its loop. -/
theorem Case2Example.main_iterations (seed : Int) (M : Nat) :
    Case2Example.main seed (Case2Example.main.iteration_steps * M)
      = { pc := .whileTest, counter := (to_uint32 seed + M) % UINT32_MOD, iterations := M } :=
  Case2Example.main_with_iterations Case2Example.delay.callee 200001 seed M
    Case2Example.delay_callee_running Case2Example.delay_callee_returned

/-- State of `main` with `delay` mocked out after `M` passes through its loop. -/
theorem Case2Example.main_mocked_iterations (seed : Int) (M : Nat) :
    Case2Example.main_mocked seed (Case2Example.main.mocked_iteration_steps * M)
      = { pc := .whileTest, counter := (to_uint32 seed + M) % UINT32_MOD, iterations := M } :=
  Case2Example.main_with_iterations (mock_callee Nat) 0 seed M
    (fun _ hj => absurd hj (Nat.not_lt_zero _)) rfl

/-- A step of `main` never reaches `return 0`. -/
theorem Case2Example.main_step_not_returned (D : Callee Nat) (s : MainState D.State)
    (h : Case2Example.main.returned s = false) :
    Case2Example.main.returned (Case2Example.main.step D s) = false := by
  rcases s with ⟨pc, c, i⟩
  cases pc with
  | whileTest => rfl
  | increment => rfl
  | callDelay => rfl
  | inDelay d =>
    simp only [Case2Example.main.step]
    split <;> rfl
  | return0 => simp [Case2Example.main.returned] at h

/-- No state of `main` is `return 0`, whatever is linked as `delay`. -/
theorem Case2Example.main_with_not_returned (D : Callee Nat) (seed : Int) (n : Nat) :
    Case2Example.main.returned (Case2Example.main_with D seed n) = false := by
  induction n with
  | zero => rfl
  | succ n ih =>
    unfold Case2Example.main_with at ih ⊢
    rw [Function.iterate_succ_apply']
    exact Case2Example.main_step_not_returned D _ ih

/-- The two `main.c` files define the same `main`. -/
theorem Case3Example.main_with_eq (D : Callee Nat) (seed : Int) (n : Nat) :
    Case3Example.main_with D seed n = Case2Example.main_with D seed n := rfl

/-- The two `main.c` files define the same compiled `main`. -/
theorem Case3Example.main_eq (seed : Int) (n : Nat) :
    Case3Example.main seed n = Case2Example.main seed n := rfl

/-- The two `main.c` files define the same mocked `main`. -/
theorem Case3Example.main_mocked_eq (seed : Int) (n : Nat) :
    Case3Example.main_mocked seed n = Case2Example.main_mocked seed n := rfl

/-! ## The reset handler -/

/-- The loop `while (1) {}` is never left. -/
theorem Case2Example.c_int00_step_hang (M : Callee Unit) (c j : Nat) :
    (Case2Example._c_int00.step M)^[j] { pc := .hang, mainCalls := c }
      = { pc := .hang, mainCalls := c } := by
  induction j with
  | zero => rfl
  | succ j ih => rw [Function.iterate_succ_apply', ih]; rfl

/-- If the called `main` has returned after `k` of its steps, the handler is
in its loop `while (1) {}` from step `k + 1` after the call on. -/
theorem Case2Example.c_int00_step_inMain (M : Callee Unit) (c k : Nat) :
    ∀ (m : M.State), M.returned (M.step^[k] m) = true →
    ∀ j, (Case2Example._c_int00.step M)^[k + 1 + j] { pc := .inMain m, mainCalls := c }
      = { pc := .hang, mainCalls := c } := by
  have hnow : ∀ (m : M.State), M.returned m = true → ∀ j,
      (Case2Example._c_int00.step M)^[j + 1] { pc := .inMain m, mainCalls := c }
        = { pc := .hang, mainCalls := c } := by
    intro m hm j
    rw [Function.iterate_succ_apply]
    have h1 : Case2Example._c_int00.step M { pc := .inMain m, mainCalls := c }
        = { pc := .hang, mainCalls := c } := by
      simp [Case2Example._c_int00.step, hm]
    rw [h1, Case2Example.c_int00_step_hang]
  induction k with
  | zero =>
    intro m hm j
    rw [show 0 + 1 + j = j + 1 from by omega]
    exact hnow m hm j
  | succ k ih =>
    intro m hm j
    by_cases hr : M.returned m = true
    · rw [show k + 1 + 1 + j = (k + 1 + j) + 1 from by omega]
      exact hnow m hr (k + 1 + j)
    · rw [show k + 1 + 1 + j = (k + 1 + j) + 1 from by omega, Function.iterate_succ_apply]
      have h1 : Case2Example._c_int00.step M { pc := .inMain m, mainCalls := c }
          = { pc := .inMain (M.step m), mainCalls := c } := by
        simp [Case2Example._c_int00.step, hr]
      rw [h1]
      rw [Function.iterate_succ_apply] at hm
      exact ih (M.step m) hm j

/-- After its first step the handler has called `main` once and is either
inside `main` or in its loop `while (1) {}`. -/
theorem Case2Example.c_int00_called_once (M : Callee Unit) (n : Nat) :
    (Case2Example._c_int00 M (n + 1)).mainCalls = 1 ∧
    ((∃ m, (Case2Example._c_int00 M (n + 1)).pc = .inMain m)
      ∨ (Case2Example._c_int00 M (n + 1)).pc = .hang) := by
  induction n with
  | zero => exact ⟨rfl, Or.inl ⟨M.entry (), rfl⟩⟩
  | succ n ih =>
    unfold Case2Example._c_int00 at ih ⊢
    rw [Function.iterate_succ_apply']
    generalize (Case2Example._c_int00.step M)^[n + 1] (Case2Example._c_int00.entry M) = s at ih
    rcases s with ⟨pc, c⟩
    obtain ⟨hc, hpc⟩ := ih
    simp only at hc hpc
    subst hc
    rcases hpc with ⟨m, rfl⟩ | rfl
    · by_cases hr : M.returned m = true
      · simp [Case2Example._c_int00.step, hr]
      · simp [Case2Example._c_int00.step, hr]
    · simp [Case2Example._c_int00.step]

/-- The two `main.c` files define the same reset handler. -/
theorem Case3Example.c_int00_eq (M : Callee Unit) (n : Nat) :
    Case3Example._c_int00 M n = Case2Example._c_int00 M n := rfl

/-- If the called `main` has returned after `k` of its steps, the handler is
in its loop `while (1) {}` from its step `k + 2` on. -/
theorem Case2Example.c_int00_hangs (M : Callee Unit) (k : Nat)
    (hk : M.returned (M.step^[k] (M.entry ())) = true) (j : Nat) :
    Case2Example._c_int00 M (k + 2 + j) = { pc := .hang, mainCalls := 1 } := by
  unfold Case2Example._c_int00
  rw [show k + 2 + j = (k + 1 + j) + 1 from by omega, Function.iterate_succ_apply]
  exact Case2Example.c_int00_step_inMain M 1 k (M.entry ()) hk j

/-- While the called `main` has not returned, the handler is inside `main`, at
the state that `main` has reached, with `main` called once. -/
theorem Case2Example.c_int00_inside_main (M : Callee Unit) (k : Nat)
    (h : ∀ i, i < k → M.returned (M.step^[i] (M.entry ())) = false) :
    Case2Example._c_int00 M (k + 1)
      = { pc := .inMain (M.step^[k] (M.entry ())), mainCalls := 1 } := by
  induction k with
  | zero => rfl
  | succ k ih =>
    have hprev := ih (fun i hi => h i (by omega))
    unfold Case2Example._c_int00 at hprev ⊢
    rw [Function.iterate_succ_apply', hprev, Function.iterate_succ_apply']
    simp [Case2Example._c_int00.step, h k (by omega)]

/-- With `delay` mocked out, the counter after `M` passes through the loop of
`main` equals the seed plus `M` exactly when that sum is a `uint32_t` value. -/
theorem Case2Example.main_mocked_counter_eq_iff (seed : Int) (M : Nat) :
    ((Case2Example.main_mocked seed
        (Case2Example.main.mocked_iteration_steps * M)).counter : Int) = seed + (M : Int)
      ↔ (0 ≤ seed + (M : Int) ∧ seed + (M : Int) < 2 ^ 32) := by
  rw [Case2Example.main_mocked_iterations]
  show (((to_uint32 seed + M) % UINT32_MOD : Nat) : Int) = seed + (M : Int) ↔ _
  rw [to_uint32_add_mod]
  omega

/-! ## The platform library -/

/-- An `int` is stored as itself. -/
theorem to_int_of_range (x : Int) (hlo : INT_MIN ≤ x) (hhi : x ≤ INT_MAX) : to_int x = x := by
  unfold to_int INT_MIN INT_MAX INT_MOD at *
  omega

/-! ## The claims -/

/-- C1: in both examples the reset handler `_c_int00` calls `main` exactly once
and never returns, whatever `main` does: no state of the handler is the return
point, after the first step it is never again at the call and the number of
calls of `main` is one, and once `main` has returned (after `k` of its steps)
the handler is in its loop `while (1) {}` at every later step.  The call is
made: the handler starts at the call, its first step enters `main` at the entry
state of `main`, and as long as `main` has not returned the handler is inside
`main`, at the state `main` has reached by its own steps. -/
theorem c_int00_calls_main_once_and_hangs (M : Callee Unit) :
    ((∀ n, (Case2Example._c_int00 M n).pc ≠ .returned
        ∧ (Case2Example._c_int00 M n).mainCalls ≤ 1
        ∧ (Case2Example._c_int00 M (n + 1)).pc ≠ .callMain
        ∧ (Case2Example._c_int00 M (n + 1)).mainCalls = 1)
      ∧ (∀ k, M.returned (M.step^[k] (M.entry ())) = true →
          ∀ j, Case2Example._c_int00 M (k + 2 + j) = { pc := .hang, mainCalls := 1 })
      ∧ Case2Example._c_int00 M 0 = { pc := .callMain, mainCalls := 0 }
      ∧ Case2Example._c_int00 M 1 = { pc := .inMain (M.entry ()), mainCalls := 1 }
      ∧ (∀ k, (∀ i, i < k → M.returned (M.step^[i] (M.entry ())) = false) →
          Case2Example._c_int00 M (k + 1)
            = { pc := .inMain (M.step^[k] (M.entry ())), mainCalls := 1 }))
    ∧ ((∀ n, (Case3Example._c_int00 M n).pc ≠ .returned
        ∧ (Case3Example._c_int00 M n).mainCalls ≤ 1
        ∧ (Case3Example._c_int00 M (n + 1)).pc ≠ .callMain
        ∧ (Case3Example._c_int00 M (n + 1)).mainCalls = 1)
      ∧ (∀ k, M.returned (M.step^[k] (M.entry ())) = true →
          ∀ j, Case3Example._c_int00 M (k + 2 + j) = { pc := .hang, mainCalls := 1 })
      ∧ Case3Example._c_int00 M 0 = { pc := .callMain, mainCalls := 0 }
      ∧ Case3Example._c_int00 M 1 = { pc := .inMain (M.entry ()), mainCalls := 1 }
      ∧ (∀ k, (∀ i, i < k → M.returned (M.step^[i] (M.entry ())) = false) →
          Case3Example._c_int00 M (k + 1)
            = { pc := .inMain (M.step^[k] (M.entry ())), mainCalls := 1 })) := by
  have key : ((∀ n, (Case2Example._c_int00 M n).pc ≠ .returned
        ∧ (Case2Example._c_int00 M n).mainCalls ≤ 1
        ∧ (Case2Example._c_int00 M (n + 1)).pc ≠ .callMain
        ∧ (Case2Example._c_int00 M (n + 1)).mainCalls = 1)
      ∧ (∀ k, M.returned (M.step^[k] (M.entry ())) = true →
          ∀ j, Case2Example._c_int00 M (k + 2 + j) = { pc := .hang, mainCalls := 1 })
      ∧ Case2Example._c_int00 M 0 = { pc := .callMain, mainCalls := 0 }
      ∧ Case2Example._c_int00 M 1 = { pc := .inMain (M.entry ()), mainCalls := 1 }
      ∧ (∀ k, (∀ i, i < k → M.returned (M.step^[i] (M.entry ())) = false) →
          Case2Example._c_int00 M (k + 1)
            = { pc := .inMain (M.step^[k] (M.entry ())), mainCalls := 1 })) := by
    refine ⟨fun n => ?_, fun k hk j => Case2Example.c_int00_hangs M k hk j, rfl, rfl,
      fun k hk => Case2Example.c_int00_inside_main M k hk⟩
    have hsucc : ∀ i, (Case2Example._c_int00 M (i + 1)).pc ≠ .returned
        ∧ (Case2Example._c_int00 M (i + 1)).pc ≠ .callMain
        ∧ (Case2Example._c_int00 M (i + 1)).mainCalls = 1 := by
      intro i
      obtain ⟨hc, hpc⟩ := Case2Example.c_int00_called_once M i
      rcases hpc with ⟨m, hm⟩ | hh
      · rw [hm]; exact ⟨by simp, by simp, hc⟩
      · rw [hh]; exact ⟨by simp, by simp, hc⟩
    refine ⟨?_, ?_, (hsucc n).2.1, (hsucc n).2.2⟩
    · cases n with
      | zero => intro h; cases h
      | succ i => exact (hsucc i).1
    · cases n with
      | zero => exact Nat.zero_le 1
      | succ i => exact Nat.le_of_eq (hsucc i).2.2
  exact ⟨key, key⟩

/-- Witness of C1: a mock `main` that returns immediately is entered by the
handler of both examples and leaves it in its loop `while (1) {}`, with `main`
called once; the `main` of the example, with seed 7, has not returned during
its first two steps, and the handler is inside it at its third state. -/
theorem c_int00_calls_main_once_and_hangs_witness :
    (mock_callee Unit).returned
        ((mock_callee Unit).step^[0] ((mock_callee Unit).entry ())) = true
    ∧ Case2Example._c_int00 (mock_callee Unit) (0 + 2 + 5) = { pc := .hang, mainCalls := 1 }
    ∧ Case3Example._c_int00 (mock_callee Unit) (0 + 2 + 5) = { pc := .hang, mainCalls := 1 }
    ∧ Case2Example._c_int00 (mock_callee Unit) 1
        = { pc := .inMain ((mock_callee Unit).entry ()), mainCalls := 1 }
    ∧ (∀ i, i < 2 → (Case2Example.main.callee 7).returned
        ((Case2Example.main.callee 7).step^[i] ((Case2Example.main.callee 7).entry ())) = false)
    ∧ Case2Example._c_int00 (Case2Example.main.callee 7) (2 + 1)
        = { pc := .inMain ((Case2Example.main.callee 7).step^[2]
              ((Case2Example.main.callee 7).entry ())), mainCalls := 1 }
    ∧ Case3Example._c_int00 (Case3Example.main.callee 7) (2 + 1)
        = { pc := .inMain ((Case3Example.main.callee 7).step^[2]
              ((Case3Example.main.callee 7).entry ())), mainCalls := 1 } :=
  ⟨rfl, (c_int00_calls_main_once_and_hangs (mock_callee Unit)).1.2.1 0 rfl 5,
    (c_int00_calls_main_once_and_hangs (mock_callee Unit)).2.2.1 0 rfl 5,
    (c_int00_calls_main_once_and_hangs (mock_callee Unit)).1.2.2.2.1,
    by decide,
    (c_int00_calls_main_once_and_hangs (Case2Example.main.callee 7)).1.2.2.2.2 2 (by decide),
    (c_int00_calls_main_once_and_hangs (Case3Example.main.callee 7)).2.2.2.2.2 2 (by decide)⟩

/-- C2: in both examples, for every `N < 2 ^ 32` the call `delay(N)` terminates
having executed `nop` exactly `N` times: it has returned at step `2 * N + 1`
and not before, the number of `nop` executed is `N` then and at every later
step, and never exceeds `N`; `delay(0)` executes no `nop` at all. -/
theorem delay_executes_exactly_N_nops (N : Nat) (hN : N < 2 ^ 32) :
    ((Case2Example.delay N (2 * N + 1)).pc = .returned
      ∧ (Case2Example.delay N (2 * N + 1)).nops = N
      ∧ (∀ n, n < 2 * N + 1 → (Case2Example.delay N n).pc ≠ .returned)
      ∧ (∀ n, 2 * N + 1 ≤ n →
          (Case2Example.delay N n).pc = .returned ∧ (Case2Example.delay N n).nops = N)
      ∧ (∀ n, (Case2Example.delay N n).nops ≤ N)
      ∧ (∀ n, (Case2Example.delay 0 n).nops = 0))
    ∧ ((Case3Example.delay N (2 * N + 1)).pc = .returned
      ∧ (Case3Example.delay N (2 * N + 1)).nops = N
      ∧ (∀ n, n < 2 * N + 1 → (Case3Example.delay N n).pc ≠ .returned)
      ∧ (∀ n, 2 * N + 1 ≤ n →
          (Case3Example.delay N n).pc = .returned ∧ (Case3Example.delay N n).nops = N)
      ∧ (∀ n, (Case3Example.delay N n).nops ≤ N)
      ∧ (∀ n, (Case3Example.delay 0 n).nops = 0)) := by
  have hN2 : N < UINT32_MOD := hN
  have key : (Case2Example.delay N (2 * N + 1)).pc = .returned
      ∧ (Case2Example.delay N (2 * N + 1)).nops = N
      ∧ (∀ n, n < 2 * N + 1 → (Case2Example.delay N n).pc ≠ .returned)
      ∧ (∀ n, 2 * N + 1 ≤ n →
          (Case2Example.delay N n).pc = .returned ∧ (Case2Example.delay N n).nops = N)
      ∧ (∀ n, (Case2Example.delay N n).nops ≤ N)
      ∧ (∀ n, (Case2Example.delay 0 n).nops = 0) := by
    have hfin := Case2Example.delay_final N 0 hN2
    rw [Nat.add_zero] at hfin
    refine ⟨by rw [hfin], by rw [hfin], fun n hn => Case2Example.delay_running N n hN2 hn,
      fun n hn => ?_, fun n => Case2Example.delay_nops_le N n hN2, fun n => ?_⟩
    · obtain ⟨j, rfl⟩ : ∃ j, n = 2 * N + 1 + j := ⟨n - (2 * N + 1), by omega⟩
      rw [Case2Example.delay_final N j hN2]
      exact ⟨rfl, rfl⟩
    · exact Nat.le_zero.mp (Case2Example.delay_nops_le 0 n (by decide))
  exact ⟨key, key⟩

/-- Witness of C2: the call `delay(3)`. -/
theorem delay_executes_exactly_N_nops_witness :
    3 < 2 ^ 32
    ∧ (Case2Example.delay 3 (2 * 3 + 1)).pc = .returned
    ∧ (Case2Example.delay 3 (2 * 3 + 1)).nops = 3
    ∧ (Case3Example.delay 3 (2 * 3 + 1)).nops = 3 :=
  ⟨by decide, (delay_executes_exactly_N_nops 3 (by decide)).1.1,
    (delay_executes_exactly_N_nops 3 (by decide)).1.2.1,
    (delay_executes_exactly_N_nops 3 (by decide)).2.2.1⟩

/-- C3: in both examples the vector table has exactly one entry, and its
entry 0 is the address of the reset handler `_c_int00`, which is not null. -/
theorem vector_table_entry0_is_c_int00 :
    (Case2Example.vector_table.length = 1
      ∧ Case2Example.vector_table[0]? = some (FuncPtr.addr FuncSymbol._c_int00)
      ∧ Case2Example.vector_table[0]? ≠ some FuncPtr.null)
    ∧ (Case3Example.vector_table.length = 1
      ∧ Case3Example.vector_table[0]? = some (FuncPtr.addr FuncSymbol._c_int00)
      ∧ Case3Example.vector_table[0]? ≠ some FuncPtr.null) := by
  decide

/-- C4: `mylib_get_platform` returns "am243x" when only `PLATFORM_AM243X` is
defined, "tms570" when only `PLATFORM_TMS570` is defined, and "unknown" when
neither is defined. -/
theorem mylib_get_platform_by_flag :
    mylib_get_platform { PLATFORM_AM243X := true, PLATFORM_TMS570 := false } = "am243x"
    ∧ mylib_get_platform { PLATFORM_AM243X := false, PLATFORM_TMS570 := true } = "tms570"
    ∧ mylib_get_platform { PLATFORM_AM243X := false, PLATFORM_TMS570 := false } = "unknown" := by
  decide

/-- C5: `mylib_add` returns the sum of its arguments when the sum is
representable as an `int`; `mylib_add(2, 3)` is 5, the value the consumer
prints, and `mylib_add(-1, 1)` is 0. -/
theorem mylib_add_is_sum (a b : Int)
    (_ha : INT_MIN ≤ a ∧ a ≤ INT_MAX) (_hb : INT_MIN ≤ b ∧ b ≤ INT_MAX)
    (hsum : INT_MIN ≤ a + b ∧ a + b ≤ INT_MAX) :
    mylib_add a b = a + b
    ∧ mylib_add 2 3 = 5
    ∧ mylib_add (-1) 1 = 0
    ∧ (∀ cfg, (mylib_consumer.main cfg).1[1]? = some "2 + 3 = 5\n") := by
  refine ⟨to_int_of_range (a + b) hsum.1 hsum.2, by decide, by decide, fun cfg => ?_⟩
  rfl

/-- Witness of C5: the sum of the largest `int` and -1. -/
theorem mylib_add_is_sum_witness :
    (INT_MIN ≤ 2147483647 ∧ 2147483647 ≤ INT_MAX)
    ∧ (INT_MIN ≤ -1 ∧ -1 ≤ INT_MAX)
    ∧ (INT_MIN ≤ 2147483647 + -1 ∧ 2147483647 + -1 ≤ INT_MAX)
    ∧ mylib_add 2147483647 (-1) = 2147483647 + -1 :=
  ⟨by decide, by decide, by decide,
    (mylib_add_is_sum 2147483647 (-1) (by decide) (by decide) (by decide)).1⟩

/-- Counterexample to C6 as stated: with the supplier returning -2, after one
pass through the loop (delay mocked out) the counter is 4294967295, not
-2 + 1, in both examples. -/
theorem main_counter_is_not_seed_plus_M :
    ((Case2Example.main_mocked (-2) (Case2Example.main.mocked_iteration_steps * 1)).iterations = 1
      ∧ (Case2Example.main_mocked (-2) (Case2Example.main.mocked_iteration_steps * 1)).counter
          = 4294967295
      ∧ ((Case2Example.main_mocked (-2)
          (Case2Example.main.mocked_iteration_steps * 1)).counter : Int) ≠ -2 + (1 : Nat))
    ∧ ((Case3Example.main_mocked (-2) (Case3Example.main.mocked_iteration_steps * 1)).iterations = 1
      ∧ (Case3Example.main_mocked (-2) (Case3Example.main.mocked_iteration_steps * 1)).counter
          = 4294967295
      ∧ ((Case3Example.main_mocked (-2)
          (Case3Example.main.mocked_iteration_steps * 1)).counter : Int) ≠ -2 + (1 : Nat)) := by
  decide

/-- C6, amended: in both examples, for every seed `s` and every `M` with
`0 ≤ s + M < 2 ^ 32`, after `M` passes through the loop of `main` the counter
equals `s + M`, with `delay` mocked out and also with `delay` as compiled. -/
theorem main_counter_is_seed_plus_M_in_range (seed : Int) (M : Nat)
    (h0 : 0 ≤ seed + (M : Int)) (hlt : seed + (M : Int) < 2 ^ 32) :
    ((Case2Example.main_mocked seed (Case2Example.main.mocked_iteration_steps * M)).iterations = M
      ∧ ((Case2Example.main_mocked seed
          (Case2Example.main.mocked_iteration_steps * M)).counter : Int) = seed + (M : Int)
      ∧ (Case2Example.main seed (Case2Example.main.iteration_steps * M)).iterations = M
      ∧ ((Case2Example.main seed
          (Case2Example.main.iteration_steps * M)).counter : Int) = seed + (M : Int))
    ∧ ((Case3Example.main_mocked seed (Case3Example.main.mocked_iteration_steps * M)).iterations = M
      ∧ ((Case3Example.main_mocked seed
          (Case3Example.main.mocked_iteration_steps * M)).counter : Int) = seed + (M : Int)
      ∧ (Case3Example.main seed (Case3Example.main.iteration_steps * M)).iterations = M
      ∧ ((Case3Example.main seed
          (Case3Example.main.iteration_steps * M)).counter : Int) = seed + (M : Int)) := by
  have hval : (((to_uint32 seed + M) % UINT32_MOD : Nat) : Int) = seed + (M : Int) := by
    rw [to_uint32_add_mod]
    omega
  have key : ((Case2Example.main_mocked seed (Case2Example.main.mocked_iteration_steps * M)).iterations = M
      ∧ ((Case2Example.main_mocked seed
          (Case2Example.main.mocked_iteration_steps * M)).counter : Int) = seed + (M : Int)
      ∧ (Case2Example.main seed (Case2Example.main.iteration_steps * M)).iterations = M
      ∧ ((Case2Example.main seed
          (Case2Example.main.iteration_steps * M)).counter : Int) = seed + (M : Int)) := by
    rw [Case2Example.main_mocked_iterations, Case2Example.main_iterations]
    exact ⟨rfl, hval, rfl, hval⟩
  exact ⟨key, key⟩

/-- Witness of C6, amended: seed -3 and five passes through the loop. -/
theorem main_counter_is_seed_plus_M_in_range_witness :
    (0 : Int) ≤ -3 + (5 : Nat) ∧ (-3 : Int) + (5 : Nat) < 2 ^ 32
    ∧ ((Case2Example.main_mocked (-3)
        (Case2Example.main.mocked_iteration_steps * 5)).counter : Int) = -3 + (5 : Nat)
    ∧ ((Case3Example.main (-3)
        (Case3Example.main.iteration_steps * 5)).counter : Int) = -3 + (5 : Nat) :=
  ⟨by decide, by decide,
    (main_counter_is_seed_plus_M_in_range (-3) 5 (by decide) (by decide)).1.2.1,
    (main_counter_is_seed_plus_M_in_range (-3) 5 (by decide) (by decide)).2.2.2.2⟩

/-- C7: in both examples `main` never returns: for every seed and every number
of steps the state of `main` is not the exit `return 0`; the call
`delay(100000)` has returned after 200001 steps; and the loop is not stuck in
it: for every `M` the state after `M` passes of 200005 steps is at the loop
test with `M` passes completed, so at every step a later one is at the loop
test again; as the callee of the reset handler `main` has never returned. -/
theorem main_never_returns (seed : Int) (n : Nat) :
    (Case2Example.main.returned (Case2Example.main seed n) = false
      ∧ (Case2Example.delay 100000 200001).pc = .returned
      ∧ (∀ M, Case2Example.main seed (Case2Example.main.iteration_steps * M)
          = { pc := .whileTest, counter := (to_uint32 seed + M) % UINT32_MOD, iterations := M })
      ∧ (∃ m, n ≤ m ∧ (Case2Example.main seed m).pc = .whileTest)
      ∧ (Case2Example.main.callee seed).returned
          ((Case2Example.main.callee seed).step^[n] ((Case2Example.main.callee seed).entry ())) = false)
    ∧ (Case3Example.main.returned (Case3Example.main seed n) = false
      ∧ (Case3Example.delay 100000 200001).pc = .returned
      ∧ (∀ M, Case3Example.main seed (Case3Example.main.iteration_steps * M)
          = { pc := .whileTest, counter := (to_uint32 seed + M) % UINT32_MOD, iterations := M })
      ∧ (∃ m, n ≤ m ∧ (Case3Example.main seed m).pc = .whileTest)
      ∧ (Case3Example.main.callee seed).returned
          ((Case3Example.main.callee seed).step^[n] ((Case3Example.main.callee seed).entry ())) = false) := by
  have hdelay : Case2Example.delay 100000 200001
      = { pc := .returned, count := UINT32_MOD - 1, nops := 100000 } :=
    Case2Example.delay_final 100000 0 (by decide)
  have key : Case2Example.main.returned (Case2Example.main seed n) = false
      ∧ (Case2Example.delay 100000 200001).pc = .returned
      ∧ (∀ M, Case2Example.main seed (Case2Example.main.iteration_steps * M)
          = { pc := .whileTest, counter := (to_uint32 seed + M) % UINT32_MOD, iterations := M })
      ∧ (∃ m, n ≤ m ∧ (Case2Example.main seed m).pc = .whileTest)
      ∧ (Case2Example.main.callee seed).returned
          ((Case2Example.main.callee seed).step^[n] ((Case2Example.main.callee seed).entry ()))
          = false := by
    refine ⟨Case2Example.main_with_not_returned Case2Example.delay.callee seed n,
      by rw [hdelay], fun M => Case2Example.main_iterations seed M,
      ⟨Case2Example.main.iteration_steps * n, ?_, ?_⟩,
      Case2Example.main_with_not_returned Case2Example.delay.callee seed n⟩
    · unfold Case2Example.main.iteration_steps
      omega
    · rw [Case2Example.main_iterations]
  exact ⟨key, key⟩

/-- Counterexample to C8 as stated: in both examples the call `delay(3)` has
returned at step 7 and not at step 6, and the value of `count` at that moment
is 4294967295, not 0. -/
theorem delay_count_at_return_is_not_zero :
    ((Case2Example.delay 3 6).pc ≠ .returned
      ∧ (Case2Example.delay 3 7).pc = .returned
      ∧ (Case2Example.delay 3 7).count = 4294967295
      ∧ (Case2Example.delay 3 7).count ≠ 0)
    ∧ ((Case3Example.delay 3 6).pc ≠ .returned
      ∧ (Case3Example.delay 3 7).pc = .returned
      ∧ (Case3Example.delay 3 7).count = 4294967295
      ∧ (Case3Example.delay 3 7).count ≠ 0) := by
  decide

/-- C8, amended: in both examples, for every `N < 2 ^ 32` the call `delay(N)`
counts down to zero: at step `2 * N` it is at the loop test with 0 in `count`
after `N` executions of `nop`; that test stores `count - 1` once more, so from
the moment `delay` returns on the value of `count` is `2 ^ 32 - 1`. -/
theorem delay_counts_down_to_zero_then_wraps (N : Nat) (hN : N < 2 ^ 32) :
    (Case2Example.delay N (2 * N) = { pc := .whileTest, count := 0, nops := N }
      ∧ (∀ n, 2 * N + 1 ≤ n →
          Case2Example.delay N n = { pc := .returned, count := 2 ^ 32 - 1, nops := N }))
    ∧ (Case3Example.delay N (2 * N) = { pc := .whileTest, count := 0, nops := N }
      ∧ (∀ n, 2 * N + 1 ≤ n →
          Case3Example.delay N n = { pc := .returned, count := 2 ^ 32 - 1, nops := N })) := by
  have hN2 : N < UINT32_MOD := hN
  have key : Case2Example.delay N (2 * N) = { pc := .whileTest, count := 0, nops := N }
      ∧ (∀ n, 2 * N + 1 ≤ n →
          Case2Example.delay N n = { pc := .returned, count := 2 ^ 32 - 1, nops := N }) := by
    refine ⟨?_, fun n hn => ?_⟩
    · rw [Case2Example.delay_even N N hN2 (Nat.le_refl N), Nat.sub_self]
    · obtain ⟨j, rfl⟩ : ∃ j, n = 2 * N + 1 + j := ⟨n - (2 * N + 1), by omega⟩
      rw [Case2Example.delay_final N j hN2]
      rfl
  exact ⟨key, key⟩

/-- Witness of C8, amended: the call `delay(3)`. -/
theorem delay_counts_down_to_zero_then_wraps_witness :
    3 < 2 ^ 32
    ∧ Case2Example.delay 3 (2 * 3) = { pc := .whileTest, count := 0, nops := 3 }
    ∧ Case3Example.delay 3 (2 * 3) = { pc := .whileTest, count := 0, nops := 3 } :=
  ⟨by decide, (delay_counts_down_to_zero_then_wraps 3 (by decide)).1.1,
    (delay_counts_down_to_zero_then_wraps 3 (by decide)).2.1⟩

/-- C9: in both examples the counter of `main` is 32-bit unsigned: for every
seed `s`, negative ones included, and every `M`, after `M` passes through the
loop the counter equals `(s + M) mod 2 ^ 32`, with `delay` mocked out and also
with `delay` as compiled; the seed -1 is stored as `2 ^ 32 - 1` and the next
increment wraps it to 0. -/
theorem main_counter_is_seed_plus_M_mod (seed : Int) (M : Nat) :
    ((Case2Example.main_mocked seed (Case2Example.main.mocked_iteration_steps * M)).iterations = M
      ∧ ((Case2Example.main_mocked seed
          (Case2Example.main.mocked_iteration_steps * M)).counter : Int)
          = (seed + (M : Int)) % 2 ^ 32
      ∧ (Case2Example.main seed (Case2Example.main.iteration_steps * M)).iterations = M
      ∧ ((Case2Example.main seed
          (Case2Example.main.iteration_steps * M)).counter : Int) = (seed + (M : Int)) % 2 ^ 32
      ∧ (Case2Example.main_mocked (-1) 0).counter = 2 ^ 32 - 1
      ∧ (Case2Example.main_mocked (-1) Case2Example.main.mocked_iteration_steps).counter = 0)
    ∧ ((Case3Example.main_mocked seed (Case3Example.main.mocked_iteration_steps * M)).iterations = M
      ∧ ((Case3Example.main_mocked seed
          (Case3Example.main.mocked_iteration_steps * M)).counter : Int)
          = (seed + (M : Int)) % 2 ^ 32
      ∧ (Case3Example.main seed (Case3Example.main.iteration_steps * M)).iterations = M
      ∧ ((Case3Example.main seed
          (Case3Example.main.iteration_steps * M)).counter : Int) = (seed + (M : Int)) % 2 ^ 32
      ∧ (Case3Example.main_mocked (-1) 0).counter = 2 ^ 32 - 1
      ∧ (Case3Example.main_mocked (-1) Case3Example.main.mocked_iteration_steps).counter = 0) := by
  have key : (Case2Example.main_mocked seed
        (Case2Example.main.mocked_iteration_steps * M)).iterations = M
      ∧ ((Case2Example.main_mocked seed
          (Case2Example.main.mocked_iteration_steps * M)).counter : Int)
          = (seed + (M : Int)) % 2 ^ 32
      ∧ (Case2Example.main seed (Case2Example.main.iteration_steps * M)).iterations = M
      ∧ ((Case2Example.main seed
          (Case2Example.main.iteration_steps * M)).counter : Int) = (seed + (M : Int)) % 2 ^ 32
      ∧ (Case2Example.main_mocked (-1) 0).counter = 2 ^ 32 - 1
      ∧ (Case2Example.main_mocked (-1) Case2Example.main.mocked_iteration_steps).counter = 0 := by
    rw [Case2Example.main_mocked_iterations, Case2Example.main_iterations]
    exact ⟨rfl, to_uint32_add_mod seed M, rfl, to_uint32_add_mod seed M, by decide, by decide⟩
  exact ⟨key, key⟩

/-- C10: `mylib_get_platform` is total over the build configurations with
values "am243x", "tms570" and "unknown", the flag `PLATFORM_AM243X` takes
precedence when both flags are defined, and the result is "tms570" exactly
when `PLATFORM_TMS570` is defined and `PLATFORM_AM243X` is not. -/
theorem mylib_get_platform_total_am243x_first (cfg : BuildConfig) :
    (mylib_get_platform cfg = "am243x" ∨ mylib_get_platform cfg = "tms570"
      ∨ mylib_get_platform cfg = "unknown")
    ∧ mylib_get_platform { PLATFORM_AM243X := true, PLATFORM_TMS570 := true } = "am243x"
    ∧ (mylib_get_platform cfg = "tms570"
        ↔ (cfg.PLATFORM_TMS570 = true ∧ cfg.PLATFORM_AM243X = false)) := by
  rcases cfg with ⟨a, t⟩
  cases a <;> cases t <;> decide
